import Mathlib

/-!
Verification of the session-orchestration core of sniaff-android-mcp.

The TypeScript sources are shallowly embedded as pure Lean functions.
External effects (spawning processes, binding ports, filesystem writes,
adb commands) are represented by explicit oracle parameters: a
port-availability predicate `avail : Nat → Bool`, `Except`-valued
results for each external call, and an explicit `World` record for the
observable state (session registry, workspace directories, persisted
metadata, kill invocations).

The repository contains two session-manager variants concatenated in
`src/src/core/session-manager.ts`: the proxying variant (MITM proxy,
lines 1-277, prefixed `sm` here) and the elevation variant (AVD root
check, lines 278-585, prefixed `sn` here).
-/

namespace SniaffMcp

/-- ErrorCode values of the typed error taxonomy (`src/src/types/errors`,
declared by its users across the sources); only the codes reachable from
the orchestration paths modelled here are included. -/
inductive ErrorCode where
  | SESSION_NOT_FOUND
  | INTERNAL_ERROR
  | WORKSPACE_CREATE_FAILED
  | MITM_PORT_UNAVAILABLE
  | MITM_START_FAILED
  | MITMDUMP_NOT_FOUND
  | EMULATOR_START_FAILED
  | EMULATOR_BINARY_NOT_FOUND
  | EMULATOR_BOOT_TIMEOUT
  | AVD_NOT_FOUND
  | ADB_NOT_FOUND
  | PROXY_CONFIG_FAILED
  | ROOT_CHECK_FAILED
  | SYSTEM_IMAGE_DOWNLOAD_FAILED
  | AVD_CREATE_FAILED
  | ROOTAVD_FAILED
  deriving DecidableEq, Repr

/-- Errors in flight: either a typed SmaliusError/SniaffError carrying an
ErrorCode, or an untyped low-level Error (`raw`). -/
inductive Err where
  | typed (code : ErrorCode)
  | raw
  deriving DecidableEq, Repr

/-- The catch block of both startSession variants: a typed error is
rethrown as-is, anything else is wrapped as INTERNAL_ERROR
(session-manager.ts lines 177-185 and 511-519). -/
def wrapErr : Err → Err
  | .typed c => .typed c
  | .raw => .typed .INTERNAL_ERROR

/-- SessionState enum (src/src/types/session.ts). -/
inductive SessionState where
  | IDLE
  | SETUP_AVD
  | CREATE_WORKSPACE
  | START_MITM
  | START_EMULATOR
  | WAIT_BOOT
  | CONFIGURE_PROXY
  | READY
  | ERROR
  | STOPPED
  deriving DecidableEq, Repr

/-! ## Port finder (src/unnamed/part_005, class PortFinder)

`isAvailable` probes the OS; it is modelled by the oracle
`avail : Nat → Bool`. -/

/-- PortFinder.findAvailable (part_005 lines 17-24): linear scan from
`start` to `stop` inclusive, first available port wins, `none` models the
thrown range-exhausted Error. -/
def findAvailable (avail : Nat → Bool) (start stop : Nat) : Option Nat :=
  if start ≤ stop then
    if avail start then some start
    else findAvailable avail (start + 1) stop
  else none
termination_by stop + 1 - start
decreasing_by omega

/-- Loop body of PortFinder.findAvailableEven (part_005 lines 28-33):
scan by steps of 2 while `port <= end`. -/
def findAvailableEvenLoop (avail : Nat → Bool) (port stop : Nat) : Option Nat :=
  if port ≤ stop then
    if avail port then some port
    else findAvailableEvenLoop avail (port + 2) stop
  else none
termination_by stop + 1 - port
decreasing_by omega

/-- PortFinder.findAvailableEven (part_005 lines 26-35): round `start` up
to even, then scan even ports; `none` models the thrown Error. -/
def findAvailableEven (avail : Nat → Bool) (start stop : Nat) : Option Nat :=
  findAvailableEvenLoop avail (if start % 2 = 0 then start else start + 1) stop

theorem findAvailable_some (avail : Nat → Bool) (a b p : Nat)
    (h : findAvailable avail a b = some p) :
    a ≤ p ∧ p ≤ b ∧ avail p = true := by
  suffices H : ∀ m a, b + 1 - a = m → findAvailable avail a b = some p →
      a ≤ p ∧ p ≤ b ∧ avail p = true from H _ a rfl h
  intro m
  induction m with
  | zero =>
    intro a hm h
    rw [findAvailable, if_neg (by omega)] at h
    exact absurd h (by simp)
  | succ n ih =>
    intro a hm h
    rw [findAvailable, if_pos (by omega)] at h
    by_cases hav : avail a = true
    · rw [if_pos hav] at h
      obtain rfl : a = p := by injection h
      exact ⟨Nat.le_refl _, by omega, hav⟩
    · rw [if_neg hav] at h
      have := ih (a + 1) (by omega) h
      exact ⟨by omega, this.2.1, this.2.2⟩

theorem findAvailable_none (avail : Nat → Bool) (a b : Nat)
    (h : ∀ p, a ≤ p → p ≤ b → avail p = false) :
    findAvailable avail a b = none := by
  suffices H : ∀ m a, b + 1 - a = m →
      (∀ p, a ≤ p → p ≤ b → avail p = false) →
      findAvailable avail a b = none from H _ a rfl h
  intro m
  induction m with
  | zero =>
    intro a hm _
    rw [findAvailable, if_neg (by omega)]
  | succ n ih =>
    intro a hm h
    rw [findAvailable]
    by_cases hab : a ≤ b
    · rw [if_pos hab, if_neg (by simp [h a (Nat.le_refl _) hab])]
      exact ih (a + 1) (by omega) (fun p h1 h2 => h p (by omega) h2)
    · rw [if_neg hab]

theorem findAvailable_min (avail : Nat → Bool) (a b p : Nat)
    (h : findAvailable avail a b = some p) :
    ∀ q, a ≤ q → avail q = true → p ≤ q := by
  suffices H : ∀ m a, b + 1 - a = m → findAvailable avail a b = some p →
      ∀ q, a ≤ q → avail q = true → p ≤ q from H _ a rfl h
  intro m
  induction m with
  | zero =>
    intro a hm h
    rw [findAvailable, if_neg (by omega)] at h
    exact absurd h (by simp)
  | succ n ih =>
    intro a hm h q hq havq
    rw [findAvailable, if_pos (by omega)] at h
    by_cases hav : avail a = true
    · rw [if_pos hav] at h
      obtain rfl : a = p := by injection h
      exact hq
    · rw [if_neg hav] at h
      rcases Nat.eq_or_lt_of_le hq with rfl | hlt
      · exact absurd havq hav
      · exact ih (a + 1) (by omega) h q (by omega) havq

theorem findAvailableEvenLoop_some (avail : Nat → Bool) (a b p : Nat)
    (h : findAvailableEvenLoop avail a b = some p) :
    a ≤ p ∧ p ≤ b ∧ avail p = true ∧ p % 2 = a % 2 := by
  suffices H : ∀ m a, b + 1 - a ≤ m → findAvailableEvenLoop avail a b = some p →
      a ≤ p ∧ p ≤ b ∧ avail p = true ∧ p % 2 = a % 2 from H _ a (Nat.le_refl _) h
  intro m
  induction m with
  | zero =>
    intro a hm h
    rw [findAvailableEvenLoop, if_neg (by omega)] at h
    exact absurd h (by simp)
  | succ n ih =>
    intro a hm h
    by_cases hab : a ≤ b
    · rw [findAvailableEvenLoop, if_pos hab] at h
      by_cases hav : avail a = true
      · rw [if_pos hav] at h
        obtain rfl : a = p := by injection h
        exact ⟨Nat.le_refl _, hab, hav, rfl⟩
      · rw [if_neg hav] at h
        have := ih (a + 2) (by omega) h
        exact ⟨by omega, this.2.1, this.2.2.1, by omega⟩
    · rw [findAvailableEvenLoop, if_neg hab] at h
      exact absurd h (by simp)

theorem findAvailableEvenLoop_none (avail : Nat → Bool) (a b : Nat)
    (h : ∀ p, a ≤ p → p ≤ b → p % 2 = a % 2 → avail p = false) :
    findAvailableEvenLoop avail a b = none := by
  suffices H : ∀ m a, b + 1 - a ≤ m →
      (∀ p, a ≤ p → p ≤ b → p % 2 = a % 2 → avail p = false) →
      findAvailableEvenLoop avail a b = none from H _ a (Nat.le_refl _) h
  intro m
  induction m with
  | zero =>
    intro a hm _
    rw [findAvailableEvenLoop, if_neg (by omega)]
  | succ n ih =>
    intro a hm h
    rw [findAvailableEvenLoop]
    by_cases hab : a ≤ b
    · rw [if_pos hab, if_neg (by simp [h a (Nat.le_refl _) hab rfl])]
      exact ih (a + 2) (by omega) (fun p h1 h2 h3 => h p (by omega) h2 (by omega))
    · rw [if_neg hab]

theorem findAvailableEvenLoop_min (avail : Nat → Bool) (a b p : Nat)
    (h : findAvailableEvenLoop avail a b = some p) :
    ∀ q, a ≤ q → q % 2 = a % 2 → avail q = true → p ≤ q := by
  suffices H : ∀ m a, b + 1 - a ≤ m → findAvailableEvenLoop avail a b = some p →
      ∀ q, a ≤ q → q % 2 = a % 2 → avail q = true → p ≤ q from H _ a (Nat.le_refl _) h
  intro m
  induction m with
  | zero =>
    intro a hm h
    rw [findAvailableEvenLoop, if_neg (by omega)] at h
    exact absurd h (by simp)
  | succ n ih =>
    intro a hm h q hq hqpar havq
    by_cases hab : a ≤ b
    · rw [findAvailableEvenLoop, if_pos hab] at h
      by_cases hav : avail a = true
      · rw [if_pos hav] at h
        obtain rfl : a = p := by injection h
        exact hq
      · rw [if_neg hav] at h
        have hne : q ≠ a := fun hqa => hav (hqa ▸ havq)
        exact ih (a + 2) (by omega) h q (by omega) (by omega) havq
    · rw [findAvailableEvenLoop, if_neg hab] at h
      exact absurd h (by simp)

/-- C6: for every valid range, `findAvailable` only returns ports inside
the range (and only available ones); when every port in the range is
occupied it returns `none` (the thrown range-exhausted Error) rather than
any port. -/
theorem findAvailable_range_and_exhaustion (avail : Nat → Bool) (a b : Nat) :
    (∀ p, findAvailable avail a b = some p → a ≤ p ∧ p ≤ b ∧ avail p = true) ∧
    ((∀ p, a ≤ p → p ≤ b → avail p = false) → findAvailable avail a b = none) := by
  exact ⟨fun p hp => findAvailable_some avail a b p hp,
         fun h => findAvailable_none avail a b h⟩

/-- Witness for C6 at a concrete range: scanning [10, 14] with only 12
free returns 12 (inside the range), and a fully occupied [10, 14]
returns none. -/
theorem findAvailable_range_and_exhaustion_witness :
    (10 ≤ 12 ∧ 12 ≤ 14 ∧ (fun p => decide (p = 12)) 12 = true) ∧
    findAvailable (fun _ => false) 10 14 = none := by
  constructor
  · exact (findAvailable_range_and_exhaustion (fun p => decide (p = 12)) 10 14).1 12
      (by simp [findAvailable])
  · exact (findAvailable_range_and_exhaustion (fun _ => false) 10 14).2
      (fun p _ _ => rfl)

/-- C5: `findAvailableEven` returns only even ports within the range (and
only available ones); it returns `none` when no even port in the range is
available; and when all odd ports in the range are occupied and all even
ports are free it returns the first (smallest) even free port. -/
theorem findAvailableEven_spec (avail : Nat → Bool) (a b : Nat) :
    (∀ p, findAvailableEven avail a b = some p →
      p % 2 = 0 ∧ a ≤ p ∧ p ≤ b ∧ avail p = true) ∧
    ((∀ p, a ≤ p → p ≤ b → p % 2 = 0 → avail p = false) →
      findAvailableEven avail a b = none) ∧
    ((∀ p, a ≤ p → p ≤ b → p % 2 = 1 → avail p = false) →
     (∀ p, a ≤ p → p ≤ b → p % 2 = 0 → avail p = true) →
     (if a % 2 = 0 then a else a + 1) ≤ b →
     ∃ p, findAvailableEven avail a b = some p ∧ p % 2 = 0 ∧ avail p = true ∧
       a ≤ p ∧ p ≤ b ∧
       ∀ q, a ≤ q → q ≤ b → q % 2 = 0 → avail q = true → p ≤ q) := by
  refine ⟨?_, ?_, ?_⟩
  · intro p hp
    unfold findAvailableEven at hp
    have h := findAvailableEvenLoop_some avail _ b p hp
    by_cases ha : a % 2 = 0
    · rw [if_pos ha] at h
      exact ⟨by omega, h.1, h.2.1, h.2.2.1⟩
    · rw [if_neg ha] at h
      have : a % 2 = 1 := by omega
      exact ⟨by omega, by omega, h.2.1, h.2.2.1⟩
  · intro h
    unfold findAvailableEven
    by_cases ha : a % 2 = 0
    · rw [if_pos ha]
      exact findAvailableEvenLoop_none avail a b
        (fun p h1 h2 h3 => h p h1 h2 (by omega))
    · rw [if_neg ha]
      have : a % 2 = 1 := by omega
      exact findAvailableEvenLoop_none avail (a + 1) b
        (fun p h1 h2 h3 => h p (by omega) h2 (by omega))
  · intro _ hEven hstart
    set p0 : Nat := if a % 2 = 0 then a else a + 1 with hp0
    have hp0even : p0 % 2 = 0 := by
      rw [hp0]; by_cases ha : a % 2 = 0
      · rw [if_pos ha]; exact ha
      · rw [if_neg ha]; omega
    have hp0a : a ≤ p0 := by rw [hp0]; split <;> omega
    have havp0 : avail p0 = true := hEven p0 hp0a hstart hp0even
    refine ⟨p0, ?_, hp0even, havp0, hp0a, hstart, ?_⟩
    · unfold findAvailableEven
      rw [← hp0, findAvailableEvenLoop, if_pos hstart, if_pos havp0]
    · intro q hq _ hqe _
      rw [hp0]; by_cases ha : a % 2 = 0
      · rw [if_pos ha]; exact hq
      · rw [if_neg ha]; omega

/-- Witness for C5 at a concrete range [5555, 5561] with all odd ports
occupied and all even ports free: the scan succeeds and (per the
minimality conjunct of the theorem) the returned port is the first even
free port, 5556. -/
theorem findAvailableEven_spec_witness :
    ∃ p, findAvailableEven (fun q => decide (q % 2 = 0)) 5555 5561 = some p ∧
      p % 2 = 0 ∧ (fun q => decide (q % 2 = 0)) p = true ∧ 5555 ≤ p ∧ p ≤ 5561 ∧
      ∀ q, 5555 ≤ q → q ≤ 5561 → q % 2 = 0 →
        (fun q => decide (q % 2 = 0)) q = true → p ≤ q := by
  exact (findAvailableEven_spec (fun q => decide (q % 2 = 0)) 5555 5561).2.2
    (fun p _ _ hodd => by simp; omega)
    (fun p _ _ heven => by simp [heven])
    (by norm_num)

/-! ## Configuration (src/src/config.ts)

Only the fields consumed by the orchestration paths modelled here. -/

/-- Config record (config.ts lines 10-28), restricted to the numeric
fields the session paths read. -/
structure Config where
  defaultMitmPort : Nat
  defaultEmulatorPort : Nat
  maxSessions : Nat
  portRetryAttempts : Nat
  deriving DecidableEq, Repr

/-! ## MITM adapter port selection (src/src/adapters/mitm-adapter.ts) -/

/-- Retry loop of MitmAdapter.start (mitm-adapter.ts lines 45-52): test
`port`, then `port+1`, ..., for `portRetryAttempts` attempts. -/
def mitmTryPorts (avail : Nat → Bool) (port attempts : Nat) : Option Nat :=
  match attempts with
  | 0 => none
  | n + 1 => if avail port then some port else mitmTryPorts avail (port + 1) n

/-- Port selection of MitmAdapter.start (mitm-adapter.ts lines 40-68):
`options.port || defaultMitmPort` (JS `||`, so an explicit 0 falls back to
the default), sequential retry, then fallback scan over
[defaultMitmPort, defaultMitmPort + 100]; exhaustion of the scan throws
MITM_PORT_UNAVAILABLE. -/
def mitmSelectPort (cfg : Config) (avail : Nat → Bool) (requested : Option Nat) :
    Except ErrorCode Nat :=
  let base : Nat :=
    match requested with
    | none => cfg.defaultMitmPort
    | some p => if p = 0 then cfg.defaultMitmPort else p
  match mitmTryPorts avail base cfg.portRetryAttempts with
  | some p => .ok p
  | none =>
    match findAvailable avail cfg.defaultMitmPort (cfg.defaultMitmPort + 100) with
    | some p => .ok p
    | none => .error .MITM_PORT_UNAVAILABLE

/-- Result of MitmAdapter.start (mitm-adapter.ts lines 15-18). -/
structure MitmStartResult where
  pid : Nat
  port : Nat
  deriving DecidableEq, Repr

/-- MitmAdapter.start (mitm-adapter.ts lines 40-130): select a port, then
spawn mitmdump; the spawn outcome (including the settle-delay liveness
check and its typed wrapping) is the oracle `spawnRes`. All throw sites of
the adapter are typed SniaffErrors. -/
def mitmAdapterStart (cfg : Config) (avail : Nat → Bool)
    (spawnRes : Except ErrorCode Nat) (requested : Option Nat) :
    Except ErrorCode MitmStartResult :=
  match mitmSelectPort cfg avail requested with
  | .error c => .error c
  | .ok port =>
    match spawnRes with
    | .error c => .error c
    | .ok pid => .ok ⟨pid, port⟩

theorem mitmTryPorts_none (avail : Nat → Bool) (port k : Nat)
    (h : ∀ i, i < k → avail (port + i) = false) :
    mitmTryPorts avail port k = none := by
  induction k generalizing port with
  | zero => rfl
  | succ n ih =>
    have h0 : avail port = false := by simpa using h 0 (by omega)
    rw [mitmTryPorts, if_neg (by simp [h0])]
    exact ih (port + 1) (fun i hi => by
      have := h (i + 1) (by omega)
      simpa [Nat.add_assoc, Nat.add_comm 1 i] using this)

/-- C10: when the requested MITM port and the next portRetryAttempts - 1
sequentially increasing ports are all unavailable, port selection falls
back to scanning [defaultMitmPort, defaultMitmPort + 100] anchored at the
configured default (so the chosen port may be lower than the requested
one), and only when that scan finds nothing does selection fail, with the
MITM_PORT_UNAVAILABLE kind. -/
theorem mitm_port_fallback (cfg : Config) (avail : Nat → Bool) (p : Nat)
    (hp : p ≠ 0)
    (hbusy : ∀ i, i < cfg.portRetryAttempts → avail (p + i) = false) :
    mitmSelectPort cfg avail (some p) =
      (match findAvailable avail cfg.defaultMitmPort (cfg.defaultMitmPort + 100) with
       | some q => .ok q
       | none => .error .MITM_PORT_UNAVAILABLE) ∧
    (∀ e, mitmSelectPort cfg avail (some p) = .error e →
      e = .MITM_PORT_UNAVAILABLE ∧
      findAvailable avail cfg.defaultMitmPort (cfg.defaultMitmPort + 100) = none) := by
  have htry : mitmTryPorts avail p cfg.portRetryAttempts = none :=
    mitmTryPorts_none avail p cfg.portRetryAttempts hbusy
  constructor
  · unfold mitmSelectPort
    simp only [if_neg hp, htry]
  · intro e he
    unfold mitmSelectPort at he
    simp only [if_neg hp, htry] at he
    rcases hscan : findAvailable avail cfg.defaultMitmPort (cfg.defaultMitmPort + 100) with
      _ | q
    · rw [hscan] at he
      exact ⟨by injection he with h; exact h.symm, rfl⟩
    · rw [hscan] at he
      exact absurd he (by simp)

/-- Witness for C10: default port 8080, 5 retry attempts, only 8085 free.
Requested port 9000: ports 9000-9004 are all busy, the fallback scan
anchored at 8080 returns 8085, which is lower than the requested 9000. -/
theorem mitm_port_fallback_witness :
    mitmSelectPort ⟨8080, 5554, 10, 5⟩ (fun q => decide (q = 8085)) (some 9000) =
      .ok 8085 ∧ 8085 < 9000 := by
  have h := mitm_port_fallback ⟨8080, 5554, 10, 5⟩ (fun q => decide (q = 8085)) 9000
    (by norm_num) (fun i hi => by simp; omega)
  refine ⟨?_, by norm_num⟩
  rw [h.1]
  rw [findAvailable, findAvailable, findAvailable, findAvailable, findAvailable,
    findAvailable]
  norm_num

/-! ## Emulator adapter (src/src/adapters/emulator-adapter.ts) -/

/-- Result of EmulatorAdapter.start (emulator-adapter.ts lines 19-23). -/
structure EmulatorStartResult where
  pid : Nat
  consolePort : Nat
  adbPort : Nat
  deriving DecidableEq, Repr

/-- Console-port selection of EmulatorAdapter.start (emulator-adapter.ts
lines 75-86): `options.port || defaultEmulatorPort` (JS `||`), bump an odd
port to the next even one, then scan even ports up to 5682. -/
def emulatorSelectPort (cfg : Config) (avail : Nat → Bool) (requested : Option Nat) :
    Option Nat :=
  let p0 : Nat :=
    match requested with
    | none => cfg.defaultEmulatorPort
    | some p => if p = 0 then cfg.defaultEmulatorPort else p
  let p1 : Nat := if p0 % 2 ≠ 0 then p0 + 1 else p0
  findAvailableEven avail p1 5682

/-- EmulatorAdapter.start (emulator-adapter.ts lines 66-159): verify the
AVD exists (oracle `avdCheck`), select an even console port (port-range
exhaustion throws EMULATOR_START_FAILED), derive adbPort = consolePort + 1,
then spawn the emulator (oracle `spawnRes`, covering the log stream, the
spawn and the immediate-exit check, all of whose throw sites are typed). -/
def emulatorAdapterStart (cfg : Config) (avdCheck : Except ErrorCode Unit)
    (avail : Nat → Bool) (spawnRes : Except ErrorCode Nat)
    (requested : Option Nat) : Except ErrorCode EmulatorStartResult :=
  match avdCheck with
  | .error c => .error c
  | .ok _ =>
    match emulatorSelectPort cfg avail requested with
    | none => .error .EMULATOR_START_FAILED
    | some consolePort =>
      match spawnRes with
      | .error c => .error c
      | .ok pid => .ok ⟨pid, consolePort, consolePort + 1⟩

theorem emulatorAdapterStart_ok (cfg : Config) (avdCheck : Except ErrorCode Unit)
    (avail : Nat → Bool) (spawnRes : Except ErrorCode Nat) (requested : Option Nat)
    (r : EmulatorStartResult)
    (h : emulatorAdapterStart cfg avdCheck avail spawnRes requested = .ok r) :
    emulatorSelectPort cfg avail requested = some r.consolePort ∧
    r.adbPort = r.consolePort + 1 := by
  unfold emulatorAdapterStart at h
  rcases avdCheck with c | u
  · exact absurd h (by simp)
  · rcases hsel : emulatorSelectPort cfg avail requested with _ | cp
    · rw [hsel] at h
      exact absurd h (by simp)
    · rw [hsel] at h
      rcases spawnRes with c | pid
      · exact absurd h (by simp)
      · obtain rfl : (⟨pid, cp, cp + 1⟩ : EmulatorStartResult) = r := by injection h
        exact ⟨rfl, rfl⟩

theorem evened_mod_two (n : Nat) : (if n % 2 = 0 then n else n + 1) % 2 = 0 := by
  split <;> omega

theorem emulatorSelectPort_even (cfg : Config) (avail : Nat → Bool)
    (requested : Option Nat) (c : Nat)
    (h : emulatorSelectPort cfg avail requested = some c) :
    c % 2 = 0 ∧ c ≤ 5682 ∧ avail c = true := by
  unfold emulatorSelectPort findAvailableEven at h
  have hs := findAvailableEvenLoop_some avail _ 5682 c h
  obtain ⟨h1, h2, h3, h4⟩ := hs
  exact ⟨h4.trans (evened_mod_two _), h2, h3⟩

/-- C4: every successful emulator start returns adbPort = consolePort + 1
with an even console port; requesting console port 5554 when 5554 is free
yields console 5554 and control 5555; requesting 5554 when it is occupied
yields the smallest free even port ≥ 5554 (hence ≥ 5556) and a control
port distinct from 5555. -/
theorem emulator_port_pairing (cfg : Config) (avdCheck : Except ErrorCode Unit)
    (avail : Nat → Bool) (spawnRes : Except ErrorCode Nat) (requested : Option Nat)
    (r : EmulatorStartResult)
    (h : emulatorAdapterStart cfg avdCheck avail spawnRes requested = .ok r) :
    (r.adbPort = r.consolePort + 1 ∧ r.consolePort % 2 = 0) ∧
    (avail 5554 = true → requested = some 5554 →
      r.consolePort = 5554 ∧ r.adbPort = 5555) ∧
    (avail 5554 = false → requested = some 5554 →
      5556 ≤ r.consolePort ∧ avail r.consolePort = true ∧
      (∀ q, 5554 ≤ q → q % 2 = 0 → avail q = true → r.consolePort ≤ q) ∧
      r.adbPort ≠ 5555) := by
  obtain ⟨hsel, hadb⟩ := emulatorAdapterStart_ok cfg avdCheck avail spawnRes requested r h
  obtain ⟨heven, hle, hav⟩ := emulatorSelectPort_even cfg avail requested r.consolePort hsel
  refine ⟨⟨hadb, heven⟩, ?_, ?_⟩
  · intro hfree hreq
    subst hreq
    unfold emulatorSelectPort findAvailableEven at hsel
    norm_num at hsel
    rw [findAvailableEvenLoop, if_pos (by norm_num), if_pos hfree] at hsel
    have : 5554 = r.consolePort := by injection hsel
    omega
  · intro hbusy hreq
    subst hreq
    unfold emulatorSelectPort findAvailableEven at hsel
    norm_num at hsel
    have hge := (findAvailableEvenLoop_some avail 5554 5682 r.consolePort hsel).1
    have hne : r.consolePort ≠ 5554 := fun hc => by rw [hc] at hav; rw [hav] at hbusy; cases hbusy
    refine ⟨by omega, hav, ?_, by omega⟩
    intro q hq hqe hqa
    exact findAvailableEvenLoop_min avail 5554 5682 r.consolePort hsel q hq (by omega) hqa

/-- Witness for C4 at concrete inputs: with every port free and console
port 5554 requested the adapter returns pid 71, console 5554, control
5555; with only 5554 occupied it returns console 5556, control 5557. -/
theorem emulator_port_pairing_witness :
    ((⟨71, 5554, 5555⟩ : EmulatorStartResult).adbPort = 5555 ∧
      (⟨71, 5554, 5555⟩ : EmulatorStartResult).consolePort = 5554) ∧
    (5556 ≤ (⟨72, 5556, 5557⟩ : EmulatorStartResult).consolePort ∧
      (⟨72, 5556, 5557⟩ : EmulatorStartResult).adbPort ≠ 5555) := by
  have h1 := emulator_port_pairing ⟨8080, 5554, 10, 5⟩ (.ok ()) (fun _ => true)
    (.ok 71) (some 5554) ⟨71, 5554, 5555⟩
    (by unfold emulatorAdapterStart emulatorSelectPort findAvailableEven
        rw [findAvailableEvenLoop]
        norm_num)
  have h2 := emulator_port_pairing ⟨8080, 5554, 10, 5⟩ (.ok ()) (fun q => decide (q ≠ 5554))
    (.ok 72) (some 5554) ⟨72, 5556, 5557⟩
    (by unfold emulatorAdapterStart emulatorSelectPort findAvailableEven
        rw [findAvailableEvenLoop, findAvailableEvenLoop]
        norm_num)
  refine ⟨⟨?_, ?_⟩, ?_, ?_⟩
  · exact ((h1.2.1 (by norm_num) rfl).2)
  · exact ((h1.2.1 (by norm_num) rfl).1)
  · exact (h2.2.2 (by norm_num) rfl).1
  · exact (h2.2.2 (by norm_num) rfl).2.2.2

/-! ## Session data model (src/src/types/session.ts)

The Session record is the union of the two variants' fields: the
elevation variant simply never sets the mitm fields. The `createdAt`
timestamp (an external clock read) is omitted; no claim observes it. -/

/-- Session entity (types/session.ts, interfaces SessionMeta/Session).
The workspacePath is identified with the session id (the real path is
workspacesDir/sessionId). -/
structure Session where
  sessionId : String
  avdName : String
  mitmPort : Nat
  emulatorPort : Nat
  adbPort : Nat
  state : SessionState
  workspacePath : String
  mitmPid : Option Nat
  emulatorPid : Option Nat
  deriving DecidableEq, Repr

/-- Observable state: the in-memory registry (Map sessionId → Session,
session-manager.ts line 21/298), workspace directories on disk keyed by
session id, the persisted meta.json state per session id, the sequence of
pids on which supervisor.kill was invoked, and the number of
forceRecreateAvd invocations. -/
structure World where
  registry : List (String × Session)
  fsDirs : List String
  fsMeta : List (String × SessionState)
  kills : List Nat
  recreations : Nat
  deriving DecidableEq, Repr

def regGet : List (String × Session) → String → Option Session
  | [], _ => none
  | (k, v) :: t, sid => if k = sid then some v else regGet t sid

def regErase (sid : String) : List (String × Session) → List (String × Session)
  | [] => []
  | (k, v) :: t => if k = sid then regErase sid t else (k, v) :: regErase sid t

/-- Map.set: insert or replace the binding for `sid`. -/
def regSet (sid : String) (s : Session) (r : List (String × Session)) :
    List (String × Session) :=
  (sid, s) :: regErase sid r

def metaGet : List (String × SessionState) → String → Option SessionState
  | [], _ => none
  | (k, v) :: t, sid => if k = sid then some v else metaGet t sid

def metaErase (sid : String) : List (String × SessionState) → List (String × SessionState)
  | [] => []
  | (k, v) :: t => if k = sid then metaErase sid t else (k, v) :: metaErase sid t

/-- Overwrite of the meta.json record for `sid`. -/
def metaSet (sid : String) (st : SessionState) (m : List (String × SessionState)) :
    List (String × SessionState) :=
  (sid, st) :: metaErase sid m

def dirAdd (sid : String) (ds : List String) : List String :=
  if sid ∈ ds then ds else sid :: ds

def dirRemove (sid : String) : List String → List String
  | [] => []
  | d :: t => if d = sid then dirRemove sid t else d :: dirRemove sid t

/-- WorkspaceManager.create (src/unnamed/part_004 lines 24-65): make the
session directory tree and write the initial meta record with state
CREATE_WORKSPACE. -/
def wsCreate (sid : String) (w : World) : World :=
  { w with fsDirs := dirAdd sid w.fsDirs,
           fsMeta := metaSet sid .CREATE_WORKSPACE w.fsMeta }

/-- WorkspaceManager.cleanup (part_004 lines 93-97): recursive delete of
the whole session directory, meta.json included. -/
def wsCleanup (sid : String) (w : World) : World :=
  { w with fsDirs := dirRemove sid w.fsDirs,
           fsMeta := metaErase sid w.fsMeta }

/-- Record of an invocation of supervisor.kill on `pid`. -/
def recordKill (pid : Nat) (w : World) : World :=
  { w with kills := w.kills ++ [pid] }

/-- EmulatorAdapter.stop / MitmAdapter.stop: `await supervisor.kill(pid)`
with no wrapping. The ProcessSupervisor source is not under src/;
modelled from the spec: kill requests termination and its failure
surfaces as an untyped error (spec section 4.2 and the taxonomy's
rollback-internal failures). The invocation is recorded before the
outcome is known. -/
def adapterStop (fails : Bool) (pid : Nat) (w : World) : Except Err Unit × World :=
  let w1 := recordKill pid w
  if fails then (.error .raw, w1) else (.ok (), w1)

/-- StartInput (src/src/types/schemas.ts and src/unnamed/part_002):
validated tool input. Optional ports are `none` when auto-selected. -/
structure StartInput where
  avdName : String
  mitmPort : Option Nat
  emulatorPort : Option Nat
  bootTimeout : Nat
  headless : Bool
  deriving DecidableEq, Repr

/-! ## Proxying-variant session manager
(session-manager.ts lines 1-277, class SessionManager with MitmAdapter) -/

/-- Oracle outcomes for one smStartSession run: workspace creation,
the two adapters' external steps, waitForBoot, setProxy, the final
updateMeta and the rollback-time updateMeta. -/
structure SmEnv where
  createOk : Bool
  mitmAvail : Nat → Bool
  mitmSpawn : Except ErrorCode Nat
  emuAvdCheck : Except ErrorCode Unit
  emuAvail : Nat → Bool
  emuSpawn : Except ErrorCode Nat
  boot : Except ErrorCode Unit
  setProxyOk : Bool
  finalMetaOk : Bool
  rollbackMetaOk : Bool

/-- SessionStartResult (types/session.ts lines 37-46), proxying variant.
The TypeScript code omits the warnings field when the list is empty; here
it is always a (possibly empty) list. -/
structure SessionStartResult where
  sessionId : String
  workspacePath : String
  mitmPort : Nat
  emulatorPort : Nat
  adbPort : Nat
  proxyConfigured : Bool
  state : SessionState
  warnings : List String
  deriving DecidableEq, Repr

/-- SessionManager.rollback, proxying variant (session-manager.ts lines
194-234): kill the emulator pid if recorded, then the mitm pid if
recorded (reverse order of acquisition), each with failures swallowed;
best-effort updateMeta to ERROR; delete the session from the registry.
The workspace directory is not deleted. -/
def smRollback (env : SmEnv) (s : Session) (w : World) : World :=
  let w1 := match s.emulatorPid with
    | some pid => recordKill pid w
    | none => w
  let w2 := match s.mitmPid with
    | some pid => recordKill pid w1
    | none => w1
  let w3 := if env.rollbackMetaOk
    then { w2 with fsMeta := metaSet s.sessionId .ERROR w2.fsMeta }
    else w2
  { w3 with registry := regErase s.sessionId w3.registry }

/-- SessionManager.startSession, proxying variant (session-manager.ts
lines 55-187). Every failure runs rollback on the session as mutated so
far (null before workspace creation) and rethrows the original error,
wrapped into the typed taxonomy when it was not typed. -/
def smStartSession (cfg : Config) (env : SmEnv) (sid : String) (input : StartInput)
    (w : World) : Except Err SessionStartResult × World :=
  if env.createOk = false then
    (.error (wrapErr (.typed .WORKSPACE_CREATE_FAILED)), w)
  else
    let w := wsCreate sid w
    let s : Session :=
      { sessionId := sid, avdName := input.avdName, mitmPort := 0,
        emulatorPort := 0, adbPort := 0, state := .CREATE_WORKSPACE,
        workspacePath := sid, mitmPid := none, emulatorPid := none }
    let w := { w with registry := regSet sid s w.registry }
    let s := { s with state := .START_MITM }
    let w := { w with registry := regSet sid s w.registry }
    match mitmAdapterStart cfg env.mitmAvail env.mitmSpawn input.mitmPort with
    | .error c => (.error (wrapErr (.typed c)), smRollback env s w)
    | .ok m =>
      let s := { s with mitmPort := m.port, mitmPid := some m.pid, state := .START_EMULATOR }
      let w := { w with registry := regSet sid s w.registry }
      match emulatorAdapterStart cfg env.emuAvdCheck env.emuAvail env.emuSpawn
          input.emulatorPort with
      | .error c => (.error (wrapErr (.typed c)), smRollback env s w)
      | .ok er =>
        let s := { s with emulatorPort := er.consolePort, adbPort := er.adbPort, emulatorPid := some er.pid, state := .WAIT_BOOT }
        let w := { w with registry := regSet sid s w.registry }
        match env.boot with
        | .error c => (.error (wrapErr (.typed c)), smRollback env s w)
        | .ok _ =>
          let s := { s with state := .CONFIGURE_PROXY }
          let w := { w with registry := regSet sid s w.registry }
          let proxyConfigured := env.setProxyOk
          let warnings : List String :=
            if env.setProxyOk then [] else ["DEVICE_PROXY_CONFIG_FAILED"]
          let s := { s with state := .READY }
          let w := { w with registry := regSet sid s w.registry }
          if env.finalMetaOk = false then
            (.error (wrapErr .raw), smRollback env s w)
          else
            let w := { w with fsMeta := metaSet sid .READY w.fsMeta }
            (.ok
              { sessionId := sid, workspacePath := s.workspacePath,
                mitmPort := s.mitmPort, emulatorPort := s.emulatorPort,
                adbPort := s.adbPort, proxyConfigured := proxyConfigured,
                state := .READY, warnings := warnings }, w)

/-- Oracle outcomes for one stopSession run: whether each teardown
sub-step fails. The device-side proxy-clear step has no effect on the
modelled state and its failure is swallowed by the code
(session-manager.ts lines 253-259). -/
structure StopEnv where
  clearProxyFails : Bool
  emuStopFails : Bool
  mitmStopFails : Bool
  cleanupFails : Bool
  deriving DecidableEq, Repr

/-- SessionManager.stopSession, proxying variant (session-manager.ts
lines 244-276): unknown id throws SESSION_NOT_FOUND before any side
effect; then clearProxy (best-effort), stop emulator, stop mitm, delete
the workspace, remove from the registry — the last four without any
try/catch, so a failure there propagates and aborts the remaining
steps. -/
def smStopSession (env : StopEnv) (sid : String) (w : World) :
    Except Err Unit × World :=
  match regGet w.registry sid with
  | none => (.error (.typed .SESSION_NOT_FOUND), w)
  | some s =>
    let stepEmu : Except Err Unit × World :=
      match s.emulatorPid with
      | none => (.ok (), w)
      | some pid => adapterStop env.emuStopFails pid w
    match stepEmu with
    | (.error e, w1) => (.error e, w1)
    | (.ok _, w1) =>
      let stepMitm : Except Err Unit × World :=
        match s.mitmPid with
        | none => (.ok (), w1)
        | some pid => adapterStop env.mitmStopFails pid w1
      match stepMitm with
      | (.error e, w2) => (.error e, w2)
      | (.ok _, w2) =>
        if env.cleanupFails then (.error .raw, w2)
        else
          let w3 := wsCleanup sid w2
          (.ok (), { w3 with registry := regErase sid w3.registry })

/-! ## Elevation-variant session manager
(session-manager.ts lines 278-585, class SessionManager with
AvdSetupAdapter and the post-boot root check) -/

/-- AvdSetupResult (src/src/adapters/avd-setup-adapter.ts lines 18-23). -/
structure AvdSetupResult where
  avdName : String
  wasCreated : Bool
  wasRooted : Bool
  systemImage : String
  deriving DecidableEq, Repr

/-- AvdSetupInfo as populated by the elevation-variant startSession. -/
structure AvdSetupInfo where
  avdName : String
  wasCreated : Bool
  wasRooted : Bool
  systemImage : String
  requiresMagiskSetup : Bool
  deriving DecidableEq, Repr

/-- SessionStartResult, elevation variant. -/
structure SnSessionStartResult where
  sessionId : String
  workspacePath : String
  emulatorPort : Nat
  adbPort : Nat
  state : SessionState
  avdSetup : AvdSetupInfo
  warnings : List String
  deriving DecidableEq, Repr

/-- Oracle outcomes for one elevation-variant startSession run. The two
checkRootStatus probes are modelled from the spec as booleans (whether
the elevation marker property is present); the elevation-variant
emulator adapter carrying checkRootStatus is not under src/. `stopFails`
is the outcome of stopping the non-rooted emulator (not try/caught in
the source, lines 412-415). -/
structure SnEnv where
  ensureAvd : Except ErrorCode AvdSetupResult
  createOk : Bool
  emuAvdCheck : Except ErrorCode Unit
  emuAvail : Nat → Bool
  emuSpawn : Except ErrorCode Nat
  boot : Except ErrorCode Unit
  rootCheck : Bool
  stopFails : Bool
  recreate : Except ErrorCode AvdSetupResult
  emuAvdCheck2 : Except ErrorCode Unit
  emuAvail2 : Nat → Bool
  emuSpawn2 : Except ErrorCode Nat
  boot2 : Except ErrorCode Unit
  rootCheck2 : Bool
  finalMetaOk : Bool
  rollbackMetaOk : Bool

/-- SessionManager.rollback, elevation variant (session-manager.ts lines
528-556): kill the emulator pid if recorded (failure swallowed),
best-effort updateMeta to ERROR, delete from the registry; the workspace
directory is kept. -/
def snRollback (env : SnEnv) (s : Session) (w : World) : World :=
  let w1 := match s.emulatorPid with
    | some pid => recordKill pid w
    | none => w
  let w2 := if env.rollbackMetaOk
    then { w1 with fsMeta := metaSet s.sessionId .ERROR w1.fsMeta }
    else w1
  { w2 with registry := regErase s.sessionId w2.registry }

/-- Shared READY tail of the elevation-variant startSession
(session-manager.ts lines 467-501): transition to READY, persist the
final meta record, build the result. A failing final updateMeta is an
untyped error and still triggers rollback. -/
def snFinish (env : SnEnv) (sid : String) (info : AvdSetupInfo)
    (warnings : List String) (s : Session) (w : World) :
    Except Err SnSessionStartResult × World :=
  let s := { s with state := .READY }
  let w := { w with registry := regSet sid s w.registry }
  if env.finalMetaOk = false then
    (.error (wrapErr .raw), snRollback env s w)
  else
    let w := { w with fsMeta := metaSet sid .READY w.fsMeta }
    (.ok
      { sessionId := sid, workspacePath := s.workspacePath,
        emulatorPort := s.emulatorPort, adbPort := s.adbPort,
        state := .READY, avdSetup := info, warnings := warnings }, w)

/-- SessionManager.startSession, elevation variant (session-manager.ts
lines 331-521): ensure the managed AVD, create the workspace, start the
emulator, wait for boot, then check the root marker. A failed check
triggers exactly one forced recreation (stop emulator, forceRecreateAvd,
restart, re-wait, re-check); a second failed check throws
ROOT_CHECK_FAILED. The first-run Magisk warning text is abbreviated. -/
def snStartSession (cfg : Config) (env : SnEnv) (sid : String) (input : StartInput)
    (w : World) : Except Err SnSessionStartResult × World :=
  match env.ensureAvd with
  | .error c => (.error (wrapErr (.typed c)), w)
  | .ok ar =>
    let isFirstRun := ar.wasCreated && ar.wasRooted
    let info : AvdSetupInfo :=
      { avdName := ar.avdName, wasCreated := ar.wasCreated,
        wasRooted := ar.wasRooted, systemImage := ar.systemImage,
        requiresMagiskSetup := isFirstRun }
    let warnings : List String :=
      if isFirstRun then ["FIRST RUN: Magisk setup required"] else []
    if env.createOk = false then
      (.error (wrapErr (.typed .WORKSPACE_CREATE_FAILED)), w)
    else
      let w := wsCreate sid w
      let s : Session :=
        { sessionId := sid, avdName := ar.avdName, mitmPort := 0,
          emulatorPort := 0, adbPort := 0, state := .CREATE_WORKSPACE,
          workspacePath := sid, mitmPid := none, emulatorPid := none }
      let w := { w with registry := regSet sid s w.registry }
      let s := { s with state := .START_EMULATOR }
      let w := { w with registry := regSet sid s w.registry }
      match emulatorAdapterStart cfg env.emuAvdCheck env.emuAvail env.emuSpawn
          input.emulatorPort with
      | .error c => (.error (wrapErr (.typed c)), snRollback env s w)
      | .ok er =>
        let s := { s with emulatorPort := er.consolePort, adbPort := er.adbPort, emulatorPid := some er.pid, state := .WAIT_BOOT }
        let w := { w with registry := regSet sid s w.registry }
        match env.boot with
        | .error c => (.error (wrapErr (.typed c)), snRollback env s w)
        | .ok _ =>
          if env.rootCheck then
            snFinish env sid info warnings s w
          else
            let stepStop : Except Err Unit × World :=
              match s.emulatorPid with
              | none => (.ok (), w)
              | some pid => adapterStop env.stopFails pid w
            match stepStop with
            | (.error e, w1) => (.error (wrapErr e), snRollback env s w1)
            | (.ok _, w1) =>
              let s := { s with emulatorPid := none }
              let w1 := { w1 with registry := regSet sid s w1.registry }
              let w1 := { w1 with recreations := w1.recreations + 1 }
              match env.recreate with
              | .error c => (.error (wrapErr (.typed c)), snRollback env s w1)
              | .ok ar2 =>
                let info : AvdSetupInfo :=
                  { avdName := ar2.avdName,
                    wasCreated := ar2.wasCreated, wasRooted := ar2.wasRooted,
                    systemImage := ar2.systemImage, requiresMagiskSetup := true }
                let warnings := warnings ++ ["FIRST RUN: Magisk setup required"]
                let s := { s with state := .START_EMULATOR }
                let w1 := { w1 with registry := regSet sid s w1.registry }
                match emulatorAdapterStart cfg env.emuAvdCheck2 env.emuAvail2
                    env.emuSpawn2 input.emulatorPort with
                | .error c => (.error (wrapErr (.typed c)), snRollback env s w1)
                | .ok er2 =>
                  let s := { s with emulatorPort := er2.consolePort, adbPort := er2.adbPort, emulatorPid := some er2.pid, state := .WAIT_BOOT }
                  let w1 := { w1 with registry := regSet sid s w1.registry }
                  match env.boot2 with
                  | .error c => (.error (wrapErr (.typed c)), snRollback env s w1)
                  | .ok _ =>
                    if env.rootCheck2 = false then
                      (.error (wrapErr (.typed .ROOT_CHECK_FAILED)), snRollback env s w1)
                    else
                      let warnings := warnings ++
                        ["AVD was recreated due to failed root check on first boot"]
                      snFinish env sid info warnings s w1

/-- SessionManager.stopSession, elevation variant (session-manager.ts
lines 566-585): unknown id throws SESSION_NOT_FOUND before any side
effect; then stop emulator, delete the workspace, remove from the
registry, without any try/catch. -/
def snStopSession (env : StopEnv) (sid : String) (w : World) :
    Except Err Unit × World :=
  match regGet w.registry sid with
  | none => (.error (.typed .SESSION_NOT_FOUND), w)
  | some s =>
    let stepEmu : Except Err Unit × World :=
      match s.emulatorPid with
      | none => (.ok (), w)
      | some pid => adapterStop env.emuStopFails pid w
    match stepEmu with
    | (.error e, w1) => (.error e, w1)
    | (.ok _, w1) =>
      if env.cleanupFails then (.error .raw, w1)
      else
        let w2 := wsCleanup sid w1
        (.ok (), { w2 with registry := regErase sid w2.registry })

/-! ## Registry and filesystem lemmas -/

theorem regGet_regErase (sid : String) (r : List (String × Session)) :
    regGet (regErase sid r) sid = none := by
  induction r with
  | nil => rfl
  | cons e t ih =>
    obtain ⟨k, v⟩ := e
    simp only [regErase]
    by_cases hk : k = sid
    · rw [if_pos hk]; exact ih
    · rw [if_neg hk]; simp only [regGet, if_neg hk]; exact ih

theorem metaGet_metaSet (sid : String) (st : SessionState)
    (m : List (String × SessionState)) :
    metaGet (metaSet sid st m) sid = some st := by
  simp only [metaSet, metaGet, if_pos]

theorem mem_dirAdd (sid : String) (ds : List String) : sid ∈ dirAdd sid ds := by
  rw [dirAdd]
  by_cases hm : sid ∈ ds
  · rw [if_pos hm]; exact hm
  · rw [if_neg hm]; exact List.mem_cons_self _ _

theorem not_mem_dirRemove (sid : String) (ds : List String) :
    sid ∉ dirRemove sid ds := by
  induction ds with
  | nil => simp [dirRemove]
  | cons d t ih =>
    simp only [dirRemove]
    by_cases hd : d = sid
    · rw [if_pos hd]; exact ih
    · rw [if_neg hd]
      intro hmem
      rcases List.mem_cons.mp hmem with rfl | h
      · exact hd rfl
      · exact ih h

/-! ## Claim theorems for the stop path -/

/-- C8: stopSession (both variants) on an id not present in the registry
fails with the SESSION_NOT_FOUND kind and performs no side effects: the
returned world is exactly the input world (registry, directories,
metadata, kill log all unchanged). -/
theorem stopSession_unknown_id_no_effects (env : StopEnv) (sid : String) (w : World)
    (hreg : regGet w.registry sid = none) :
    smStopSession env sid w = (.error (.typed .SESSION_NOT_FOUND), w) ∧
    snStopSession env sid w = (.error (.typed .SESSION_NOT_FOUND), w) := by
  constructor
  · rw [smStopSession, hreg]
  · rw [snStopSession, hreg]

/-- Witness for C8: stopping the unknown id s9 in a world holding only
session s1 returns SESSION_NOT_FOUND and the same world. -/
theorem stopSession_unknown_id_no_effects_witness :
    smStopSession ⟨false, false, false, false⟩ "s9"
      ⟨[("s1", ⟨"s1", "A", 0, 0, 0, .READY, "s1", none, none⟩)], ["s1"],
        [("s1", .READY)], [], 0⟩ =
      (.error (.typed .SESSION_NOT_FOUND),
        ⟨[("s1", ⟨"s1", "A", 0, 0, 0, .READY, "s1", none, none⟩)], ["s1"],
          [("s1", .READY)], [], 0⟩) := by
  exact (stopSession_unknown_id_no_effects ⟨false, false, false, false⟩ "s9"
    ⟨[("s1", ⟨"s1", "A", 0, 0, 0, .READY, "s1", none, none⟩)], ["s1"],
      [("s1", .READY)], [], 0⟩ (by decide)).1

/-- Session and world used by the C1 counterexample: one READY proxying
session s1 owning emulator pid 1 and mitm pid 2, with its workspace
directory on disk. -/
def sessionA : Session :=
  { sessionId := "s1", avdName := "SniaffPhone", mitmPort := 8080,
    emulatorPort := 5554, adbPort := 5555, state := .READY,
    workspacePath := "s1", mitmPid := some 2, emulatorPid := some 1 }

def worldA : World :=
  { registry := [("s1", sessionA)], fsDirs := ["s1"],
    fsMeta := [("s1", .READY)], kills := [], recreations := 0 }

/-- Counterexample for C1: for the registered session s1, when the
workspace-cleanup sub-step fails (fs.rm throws, and stopSession has no
try/catch around it, session-manager.ts line 272), stopSession aborts:
the error propagates and the id is NOT removed from the registry, and
the directory is NOT deleted — refuting the claim that teardown
completes best-effort even if an individual cleanup sub-step fails. The
same holds when the emulator kill fails. -/
theorem sm_stop_not_best_effort_counterexample :
    regGet worldA.registry "s1" = some sessionA ∧
    (smStopSession ⟨false, false, false, true⟩ "s1" worldA).1 = .error .raw ∧
    regGet (smStopSession ⟨false, false, false, true⟩ "s1" worldA).2.registry "s1" =
      some sessionA ∧
    "s1" ∈ (smStopSession ⟨false, false, false, true⟩ "s1" worldA).2.fsDirs ∧
    (smStopSession ⟨true, true, false, false⟩ "s1" worldA).1 = .error .raw ∧
    regGet (smStopSession ⟨true, true, false, false⟩ "s1" worldA).2.registry "s1" =
      some sessionA := by
  refine ⟨rfl, rfl, rfl, ?_, rfl, rfl⟩
  show "s1" ∈ ["s1"]
  exact List.mem_singleton.mpr rfl

/-- C1 (amended): stopSession on a registered id is best-effort only
through the device-side proxy-clear sub-step; when the emulator stop,
the mitm stop and the workspace cleanup all succeed (the proxy clear may
still fail), both variants delete the workspace directory and remove the
id from the registry. A failing kill or cleanup sub-step instead aborts
the teardown (see the counterexample). -/
theorem stopSession_success_teardown (env : StopEnv) (sid : String) (w : World)
    (s : Session)
    (hreg : regGet w.registry sid = some s)
    (hemu : env.emuStopFails = false)
    (hmitm : env.mitmStopFails = false)
    (hclean : env.cleanupFails = false) :
    ((smStopSession env sid w).1 = .ok () ∧
      regGet (smStopSession env sid w).2.registry sid = none ∧
      sid ∉ (smStopSession env sid w).2.fsDirs) ∧
    ((snStopSession env sid w).1 = .ok () ∧
      regGet (snStopSession env sid w).2.registry sid = none ∧
      sid ∉ (snStopSession env sid w).2.fsDirs) := by
  obtain ⟨sid1, avd, mp, ep, ap, st, wp, mpid, epid⟩ := s
  constructor
  · rw [smStopSession, hreg]
    rcases epid with _ | pid <;> rcases mpid with _ | pid2 <;>
      simp [adapterStop, hemu, hmitm, hclean, wsCleanup, regGet_regErase,
        not_mem_dirRemove]
  · rw [snStopSession, hreg]
    rcases epid with _ | pid <;>
      simp [adapterStop, hemu, hclean, wsCleanup, regGet_regErase,
        not_mem_dirRemove]

/-- Witness for the amended C1 at the concrete world of the
counterexample with all sub-steps succeeding: both variants remove s1
from the registry and delete its directory. -/
theorem stopSession_success_teardown_witness :
    ((smStopSession ⟨true, false, false, false⟩ "s1" worldA).1 = .ok () ∧
      regGet (smStopSession ⟨true, false, false, false⟩ "s1" worldA).2.registry "s1" =
        none ∧
      "s1" ∉ (smStopSession ⟨true, false, false, false⟩ "s1" worldA).2.fsDirs) ∧
    ((snStopSession ⟨true, false, false, false⟩ "s1" worldA).1 = .ok () ∧
      regGet (snStopSession ⟨true, false, false, false⟩ "s1" worldA).2.registry "s1" =
        none ∧
      "s1" ∉ (snStopSession ⟨true, false, false, false⟩ "s1" worldA).2.fsDirs) :=
  stopSession_success_teardown ⟨true, false, false, false⟩ "s1" worldA sessionA
    (by decide) rfl rfl rfl

/-! ## Claim theorems for the proxying-variant start path -/

/-- C7: in the proxying variant, when the run reaches the
configure-proxy phase (workspace, mitm, emulator and boot all succeeded)
and applying the device proxy setting fails, the failure is non-fatal:
startSession still returns a success result in state READY with
proxyConfigured false and the DEVICE_PROXY_CONFIG_FAILED warning. -/
theorem sm_proxy_config_best_effort (cfg : Config) (env : SmEnv) (sid : String)
    (input : StartInput) (w : World) (m : MitmStartResult) (er : EmulatorStartResult)
    (hcreate : env.createOk = true)
    (hmitm : mitmAdapterStart cfg env.mitmAvail env.mitmSpawn input.mitmPort = .ok m)
    (hemu : emulatorAdapterStart cfg env.emuAvdCheck env.emuAvail env.emuSpawn
      input.emulatorPort = .ok er)
    (hboot : env.boot = .ok ())
    (hproxy : env.setProxyOk = false)
    (hmeta : env.finalMetaOk = true) :
    (smStartSession cfg env sid input w).1 =
      .ok ⟨sid, sid, m.port, er.consolePort, er.adbPort, false, .READY,
        ["DEVICE_PROXY_CONFIG_FAILED"]⟩ := by
  simp [smStartSession, hcreate, hmitm, hemu, hboot, hproxy, hmeta]

/-- Witness for C7: a concrete run in which only the proxy configuration
fails still yields a READY success result carrying the warning. -/
theorem sm_proxy_config_best_effort_witness :
    (smStartSession ⟨8080, 5554, 1, 5⟩
      ⟨true, fun _ => true, .ok 11, .ok (), fun _ => true, .ok 12, .ok (),
        false, true, true⟩
      "s1" ⟨"SniaffPhone", some 8080, some 5554, 120000, false⟩
      ⟨[], [], [], [], 0⟩).1 =
      .ok ⟨"s1", "s1", 8080, 5554, 5555, false, .READY,
        ["DEVICE_PROXY_CONFIG_FAILED"]⟩ :=
  sm_proxy_config_best_effort ⟨8080, 5554, 1, 5⟩
    ⟨true, fun _ => true, .ok 11, .ok (), fun _ => true, .ok 12, .ok (),
      false, true, true⟩
    "s1" ⟨"SniaffPhone", some 8080, some 5554, 120000, false⟩
    ⟨[], [], [], [], 0⟩ ⟨11, 8080⟩ ⟨12, 5554, 5555⟩ rfl rfl
    (show emulatorAdapterStart ⟨8080, 5554, 1, 5⟩ (.ok ()) (fun _ => true)
        (.ok 12) (some 5554) = .ok ⟨12, 5554, 5555⟩ by
      unfold emulatorAdapterStart emulatorSelectPort findAvailableEven
      rw [findAvailableEvenLoop]
      norm_num)
    rfl rfl rfl

/-- C2: in the proxying variant, when the proxy started successfully
(its pid recorded in the session) and the emulator-start phase then
fails with the typed error c, startSession throws exactly that typed
error (it is already typed, so the catch block rethrows it unwrapped),
and afterwards: the registry no longer contains the session id, kill was
invoked on the recorded proxy pid (the only process acquired so far —
rollback stops in reverse order of acquisition and swallows stop
failures by construction), the persisted metadata shows ERROR (the
rollback-time meta write is assumed to succeed), and the workspace
directory is not deleted. -/
theorem sm_emulator_fail_rollback (cfg : Config) (env : SmEnv) (sid : String)
    (input : StartInput) (w : World) (m : MitmStartResult) (c : ErrorCode)
    (hcreate : env.createOk = true)
    (hmitm : mitmAdapterStart cfg env.mitmAvail env.mitmSpawn input.mitmPort = .ok m)
    (hemu : emulatorAdapterStart cfg env.emuAvdCheck env.emuAvail env.emuSpawn
      input.emulatorPort = .error c)
    (hrbmeta : env.rollbackMetaOk = true) :
    (smStartSession cfg env sid input w).1 = .error (.typed c) ∧
    regGet (smStartSession cfg env sid input w).2.registry sid = none ∧
    (smStartSession cfg env sid input w).2.kills = w.kills ++ [m.pid] ∧
    metaGet (smStartSession cfg env sid input w).2.fsMeta sid = some .ERROR ∧
    sid ∈ (smStartSession cfg env sid input w).2.fsDirs := by
  refine ⟨?_, ?_, ?_, ?_, ?_⟩ <;>
    simp [smStartSession, smRollback, wrapErr, hcreate, hmitm, hemu, hrbmeta,
      wsCreate, recordKill, regGet_regErase, metaGet_metaSet, mem_dirAdd]

/-- Witness for C2: a concrete run whose emulator spawn fails after the
proxy (pid 11) started: the typed error propagates, s1 is gone from the
registry, pid 11 was killed, the metadata reads ERROR and the workspace
directory survives. -/
theorem sm_emulator_fail_rollback_witness :
    (smStartSession ⟨8080, 5554, 1, 5⟩
      ⟨true, fun _ => true, .ok 11, .ok (), fun _ => true,
        .error .EMULATOR_START_FAILED, .ok (), true, true, true⟩
      "s1" ⟨"SniaffPhone", some 8080, some 5554, 120000, false⟩
      ⟨[], [], [], [], 0⟩).1 = .error (.typed .EMULATOR_START_FAILED) ∧
    regGet (smStartSession ⟨8080, 5554, 1, 5⟩
      ⟨true, fun _ => true, .ok 11, .ok (), fun _ => true,
        .error .EMULATOR_START_FAILED, .ok (), true, true, true⟩
      "s1" ⟨"SniaffPhone", some 8080, some 5554, 120000, false⟩
      ⟨[], [], [], [], 0⟩).2.registry "s1" = none ∧
    (smStartSession ⟨8080, 5554, 1, 5⟩
      ⟨true, fun _ => true, .ok 11, .ok (), fun _ => true,
        .error .EMULATOR_START_FAILED, .ok (), true, true, true⟩
      "s1" ⟨"SniaffPhone", some 8080, some 5554, 120000, false⟩
      ⟨[], [], [], [], 0⟩).2.kills = [11] ∧
    metaGet (smStartSession ⟨8080, 5554, 1, 5⟩
      ⟨true, fun _ => true, .ok 11, .ok (), fun _ => true,
        .error .EMULATOR_START_FAILED, .ok (), true, true, true⟩
      "s1" ⟨"SniaffPhone", some 8080, some 5554, 120000, false⟩
      ⟨[], [], [], [], 0⟩).2.fsMeta "s1" = some .ERROR ∧
    "s1" ∈ (smStartSession ⟨8080, 5554, 1, 5⟩
      ⟨true, fun _ => true, .ok 11, .ok (), fun _ => true,
        .error .EMULATOR_START_FAILED, .ok (), true, true, true⟩
      "s1" ⟨"SniaffPhone", some 8080, some 5554, 120000, false⟩
      ⟨[], [], [], [], 0⟩).2.fsDirs :=
  sm_emulator_fail_rollback ⟨8080, 5554, 1, 5⟩
    ⟨true, fun _ => true, .ok 11, .ok (), fun _ => true,
      .error .EMULATOR_START_FAILED, .ok (), true, true, true⟩
    "s1" ⟨"SniaffPhone", some 8080, some 5554, 120000, false⟩
    ⟨[], [], [], [], 0⟩ ⟨11, 8080⟩ .EMULATOR_START_FAILED rfl rfl
    (show emulatorAdapterStart ⟨8080, 5554, 1, 5⟩ (.ok ()) (fun _ => true)
        (.error .EMULATOR_START_FAILED) (some 5554) =
          .error .EMULATOR_START_FAILED by
      unfold emulatorAdapterStart emulatorSelectPort findAvailableEven
      rw [findAvailableEvenLoop]
      norm_num)
    rfl

/-- C9: the configured maxSessions value is never consulted by either
variant's startSession: both runs are invariant under changing
cfg.maxSessions, and a run whose phases all succeed returns a READY
success result even when the registry already holds at least
cfg.maxSessions sessions — there is no session-limit error kind in the
taxonomy, and no orchestration path reads the value. -/
theorem sm_maxSessions_not_enforced (cfg : Config) (env : SmEnv) (envN : SnEnv)
    (sid : String) (input : StartInput) (w : World) (n : Nat)
    (m : MitmStartResult) (er ern : EmulatorStartResult) (ar : AvdSetupResult) :
    smStartSession { cfg with maxSessions := n } env sid input w =
      smStartSession cfg env sid input w ∧
    snStartSession { cfg with maxSessions := n } envN sid input w =
      snStartSession cfg envN sid input w ∧
    (env.createOk = true →
     mitmAdapterStart cfg env.mitmAvail env.mitmSpawn input.mitmPort = .ok m →
     emulatorAdapterStart cfg env.emuAvdCheck env.emuAvail env.emuSpawn
       input.emulatorPort = .ok er →
     env.boot = .ok () →
     env.finalMetaOk = true →
     cfg.maxSessions ≤ w.registry.length →
     ∃ r, (smStartSession cfg env sid input w).1 = .ok r ∧ r.state = .READY) ∧
    (envN.ensureAvd = .ok ar →
     envN.createOk = true →
     emulatorAdapterStart cfg envN.emuAvdCheck envN.emuAvail envN.emuSpawn
       input.emulatorPort = .ok ern →
     envN.boot = .ok () →
     envN.rootCheck = true →
     envN.finalMetaOk = true →
     cfg.maxSessions ≤ w.registry.length →
     ∃ r, (snStartSession cfg envN sid input w).1 = .ok r ∧ r.state = .READY) := by
  refine ⟨?_, ?_, ?_, ?_⟩
  · cases cfg
    rfl
  · cases cfg
    rfl
  · intro hcreate hmitm hemu hboot hmeta _
    rcases hproxy : env.setProxyOk with _ | _
    · refine ⟨⟨sid, sid, m.port, er.consolePort, er.adbPort, false, .READY,
        ["DEVICE_PROXY_CONFIG_FAILED"]⟩, ?_, rfl⟩
      simp [smStartSession, hcreate, hmitm, hemu, hboot, hproxy, hmeta]
    · refine ⟨⟨sid, sid, m.port, er.consolePort, er.adbPort, true, .READY, []⟩, ?_, rfl⟩
      simp [smStartSession, hcreate, hmitm, hemu, hboot, hproxy, hmeta]
  · intro hensure hcreate hemu hboot hroot hmeta _
    refine ⟨⟨sid, sid, ern.consolePort, ern.adbPort, .READY,
      ⟨ar.avdName, ar.wasCreated, ar.wasRooted, ar.systemImage,
        ar.wasCreated && ar.wasRooted⟩,
      if ar.wasCreated && ar.wasRooted
        then ["FIRST RUN: Magisk setup required"] else []⟩, ?_, rfl⟩
    simp [snStartSession, snFinish, hensure, hcreate, hemu, hboot, hroot, hmeta]

/-- Witness for C9: with maxSessions configured as 1 and a registry
already holding 2 sessions, an all-phases-succeed run of either variant
still returns a READY result, and bumping maxSessions to 99 changes
nothing for either variant. -/
theorem sm_maxSessions_not_enforced_witness :
    smStartSession ⟨8080, 5554, 99, 5⟩
      ⟨true, fun _ => true, .ok 11, .ok (), fun _ => true, .ok 12, .ok (),
        true, true, true⟩
      "s9" ⟨"SniaffPhone", some 8080, some 5554, 120000, false⟩
      ⟨[("a", ⟨"a", "X", 0, 0, 0, .READY, "a", none, none⟩),
        ("b", ⟨"b", "X", 0, 0, 0, .READY, "b", none, none⟩)], [], [], [], 0⟩ =
    smStartSession ⟨8080, 5554, 1, 5⟩
      ⟨true, fun _ => true, .ok 11, .ok (), fun _ => true, .ok 12, .ok (),
        true, true, true⟩
      "s9" ⟨"SniaffPhone", some 8080, some 5554, 120000, false⟩
      ⟨[("a", ⟨"a", "X", 0, 0, 0, .READY, "a", none, none⟩),
        ("b", ⟨"b", "X", 0, 0, 0, .READY, "b", none, none⟩)], [], [], [], 0⟩ ∧
    snStartSession ⟨8080, 5554, 99, 5⟩
      ⟨.ok ⟨"SniaffPhone", false, false, "img"⟩, true, .ok (), fun _ => true,
        .ok 21, .ok (), true, false, .ok ⟨"SniaffPhone", true, true, "img"⟩,
        .ok (), fun _ => true, .ok 22, .ok (), true, true, true⟩
      "s9" ⟨"SniaffPhone", some 8080, some 5554, 120000, false⟩
      ⟨[("a", ⟨"a", "X", 0, 0, 0, .READY, "a", none, none⟩),
        ("b", ⟨"b", "X", 0, 0, 0, .READY, "b", none, none⟩)], [], [], [], 0⟩ =
    snStartSession ⟨8080, 5554, 1, 5⟩
      ⟨.ok ⟨"SniaffPhone", false, false, "img"⟩, true, .ok (), fun _ => true,
        .ok 21, .ok (), true, false, .ok ⟨"SniaffPhone", true, true, "img"⟩,
        .ok (), fun _ => true, .ok 22, .ok (), true, true, true⟩
      "s9" ⟨"SniaffPhone", some 8080, some 5554, 120000, false⟩
      ⟨[("a", ⟨"a", "X", 0, 0, 0, .READY, "a", none, none⟩),
        ("b", ⟨"b", "X", 0, 0, 0, .READY, "b", none, none⟩)], [], [], [], 0⟩ ∧
    (∃ r, (smStartSession ⟨8080, 5554, 1, 5⟩
      ⟨true, fun _ => true, .ok 11, .ok (), fun _ => true, .ok 12, .ok (),
        true, true, true⟩
      "s9" ⟨"SniaffPhone", some 8080, some 5554, 120000, false⟩
      ⟨[("a", ⟨"a", "X", 0, 0, 0, .READY, "a", none, none⟩),
        ("b", ⟨"b", "X", 0, 0, 0, .READY, "b", none, none⟩)], [], [], [], 0⟩).1 =
      .ok r ∧ r.state = .READY) ∧
    ∃ r, (snStartSession ⟨8080, 5554, 1, 5⟩
      ⟨.ok ⟨"SniaffPhone", false, false, "img"⟩, true, .ok (), fun _ => true,
        .ok 21, .ok (), true, false, .ok ⟨"SniaffPhone", true, true, "img"⟩,
        .ok (), fun _ => true, .ok 22, .ok (), true, true, true⟩
      "s9" ⟨"SniaffPhone", some 8080, some 5554, 120000, false⟩
      ⟨[("a", ⟨"a", "X", 0, 0, 0, .READY, "a", none, none⟩),
        ("b", ⟨"b", "X", 0, 0, 0, .READY, "b", none, none⟩)], [], [], [], 0⟩).1 =
      .ok r ∧ r.state = .READY := by
  have h := sm_maxSessions_not_enforced ⟨8080, 5554, 1, 5⟩
    ⟨true, fun _ => true, .ok 11, .ok (), fun _ => true, .ok 12, .ok (),
      true, true, true⟩
    ⟨.ok ⟨"SniaffPhone", false, false, "img"⟩, true, .ok (), fun _ => true,
      .ok 21, .ok (), true, false, .ok ⟨"SniaffPhone", true, true, "img"⟩,
      .ok (), fun _ => true, .ok 22, .ok (), true, true, true⟩
    "s9" ⟨"SniaffPhone", some 8080, some 5554, 120000, false⟩
    ⟨[("a", ⟨"a", "X", 0, 0, 0, .READY, "a", none, none⟩),
      ("b", ⟨"b", "X", 0, 0, 0, .READY, "b", none, none⟩)], [], [], [], 0⟩
    99 ⟨11, 8080⟩ ⟨12, 5554, 5555⟩ ⟨21, 5554, 5555⟩
    ⟨"SniaffPhone", false, false, "img"⟩
  exact ⟨h.1, h.2.1, h.2.2.1 rfl rfl
    (show emulatorAdapterStart ⟨8080, 5554, 1, 5⟩ (.ok ()) (fun _ => true)
        (.ok 12) (some 5554) = .ok ⟨12, 5554, 5555⟩ by
      unfold emulatorAdapterStart emulatorSelectPort findAvailableEven
      rw [findAvailableEvenLoop]
      norm_num)
    rfl rfl (by norm_num),
    h.2.2.2 rfl rfl
    (show emulatorAdapterStart ⟨8080, 5554, 1, 5⟩ (.ok ()) (fun _ => true)
        (.ok 21) (some 5554) = .ok ⟨21, 5554, 5555⟩ by
      unfold emulatorAdapterStart emulatorSelectPort findAvailableEven
      rw [findAvailableEvenLoop]
      norm_num)
    rfl rfl rfl (by norm_num)⟩

/-! ## Claim theorem for the elevation-variant start path -/

/-- C3: in the elevation variant, when the post-boot root check fails
(all phases before it having succeeded), the orchestrator performs
exactly one forced AVD recreation — the recreation counter rises by
exactly one whatever the second check yields; if the second check passes
(and the restart, re-boot-wait and final meta write succeed) the run
returns a READY success result, and if it fails the run throws the typed
ROOT_CHECK_FAILED error without any further recreation. -/
theorem sn_root_check_single_retry (cfg : Config) (env : SnEnv) (sid : String)
    (input : StartInput) (w : World) (ar ar2 : AvdSetupResult)
    (er er2 : EmulatorStartResult)
    (hensure : env.ensureAvd = .ok ar)
    (hcreate : env.createOk = true)
    (hemu : emulatorAdapterStart cfg env.emuAvdCheck env.emuAvail env.emuSpawn
      input.emulatorPort = .ok er)
    (hboot : env.boot = .ok ())
    (hroot : env.rootCheck = false)
    (hstop : env.stopFails = false)
    (hrec : env.recreate = .ok ar2)
    (hemu2 : emulatorAdapterStart cfg env.emuAvdCheck2 env.emuAvail2 env.emuSpawn2
      input.emulatorPort = .ok er2)
    (hboot2 : env.boot2 = .ok ())
    (hmeta : env.finalMetaOk = true) :
    (snStartSession cfg env sid input w).2.recreations = w.recreations + 1 ∧
    (env.rootCheck2 = true →
      ∃ r, (snStartSession cfg env sid input w).1 = .ok r ∧ r.state = .READY) ∧
    (env.rootCheck2 = false →
      (snStartSession cfg env sid input w).1 =
        .error (.typed .ROOT_CHECK_FAILED)) := by
  cases hrc2 : env.rootCheck2
  case false =>
    refine ⟨?_, fun h => absurd h (by simp), fun _ => ?_⟩
    · rcases hrbm : env.rollbackMetaOk with _ | _ <;>
        simp [snStartSession, snFinish, snRollback, adapterStop, wsCreate, recordKill,
          wrapErr, hensure, hcreate, hemu, hboot, hroot, hstop, hrec, hemu2, hboot2,
          hmeta, hrc2, hrbm]
    · simp [snStartSession, snFinish, snRollback, adapterStop, wsCreate, recordKill,
        wrapErr, hensure, hcreate, hemu, hboot, hroot, hstop, hrec, hemu2, hboot2,
        hmeta, hrc2]
  case true =>
    refine ⟨?_, fun _ => ?_, fun h => absurd h (by simp)⟩
    · simp [snStartSession, snFinish, snRollback, adapterStop, wsCreate, recordKill,
        wrapErr, hensure, hcreate, hemu, hboot, hroot, hstop, hrec, hemu2, hboot2,
        hmeta, hrc2]
    · refine ⟨⟨sid, sid, er2.consolePort, er2.adbPort, .READY,
        ⟨ar2.avdName, ar2.wasCreated, ar2.wasRooted, ar2.systemImage, true⟩,
        (if ar.wasCreated && ar.wasRooted
          then ["FIRST RUN: Magisk setup required"] else []) ++
          ["FIRST RUN: Magisk setup required"] ++
          ["AVD was recreated due to failed root check on first boot"]⟩, ?_, rfl⟩
      simp [snStartSession, snFinish, snRollback, adapterStop, wsCreate, recordKill,
        wrapErr, hensure, hcreate, hemu, hboot, hroot, hstop, hrec, hemu2, hboot2,
        hmeta, hrc2]

/-- Witness for C3: a concrete elevation-variant run whose first root
check fails and whose second (after the single forced recreation)
passes: the recreation counter ends at 1 and the result is READY. -/
theorem sn_root_check_single_retry_witness :
    (snStartSession ⟨8080, 5554, 1, 5⟩
      ⟨.ok ⟨"SniaffPhone", false, false, "img"⟩, true, .ok (), fun _ => true,
        .ok 21, .ok (), false, false, .ok ⟨"SniaffPhone", true, true, "img"⟩,
        .ok (), fun _ => true, .ok 22, .ok (), true, true, true⟩
      "s1" ⟨"SniaffPhone", some 8080, some 5554, 120000, false⟩
      ⟨[], [], [], [], 0⟩).2.recreations = 1 ∧
    ∃ r, (snStartSession ⟨8080, 5554, 1, 5⟩
      ⟨.ok ⟨"SniaffPhone", false, false, "img"⟩, true, .ok (), fun _ => true,
        .ok 21, .ok (), false, false, .ok ⟨"SniaffPhone", true, true, "img"⟩,
        .ok (), fun _ => true, .ok 22, .ok (), true, true, true⟩
      "s1" ⟨"SniaffPhone", some 8080, some 5554, 120000, false⟩
      ⟨[], [], [], [], 0⟩).1 = .ok r ∧ r.state = .READY := by
  have h := sn_root_check_single_retry ⟨8080, 5554, 1, 5⟩
    ⟨.ok ⟨"SniaffPhone", false, false, "img"⟩, true, .ok (), fun _ => true,
      .ok 21, .ok (), false, false, .ok ⟨"SniaffPhone", true, true, "img"⟩,
      .ok (), fun _ => true, .ok 22, .ok (), true, true, true⟩
    "s1" ⟨"SniaffPhone", some 8080, some 5554, 120000, false⟩
    ⟨[], [], [], [], 0⟩ ⟨"SniaffPhone", false, false, "img"⟩
    ⟨"SniaffPhone", true, true, "img"⟩ ⟨21, 5554, 5555⟩ ⟨22, 5554, 5555⟩
    rfl rfl
    (show emulatorAdapterStart ⟨8080, 5554, 1, 5⟩ (.ok ()) (fun _ => true)
        (.ok 21) (some 5554) = .ok ⟨21, 5554, 5555⟩ by
      unfold emulatorAdapterStart emulatorSelectPort findAvailableEven
      rw [findAvailableEvenLoop]
      norm_num)
    rfl rfl rfl rfl
    (show emulatorAdapterStart ⟨8080, 5554, 1, 5⟩ (.ok ()) (fun _ => true)
        (.ok 22) (some 5554) = .ok ⟨22, 5554, 5555⟩ by
      unfold emulatorAdapterStart emulatorSelectPort findAvailableEven
      rw [findAvailableEvenLoop]
      norm_num)
    rfl rfl
  exact ⟨h.1, h.2.1 rfl⟩

end SniaffMcp
